import Mathlib

/-!
Verification development for the `og` repository: a headless-browser session
manager (`src/server.ts`) and an Open Graph metadata scraper
(`fetch-og.ts`, `get-browser.ts`, `resolve-url.ts`, `index.ts`).

The TypeScript sources are shallowly embedded as pure Lean functions.
External collaborators (the puppeteer browser engine, the cheerio HTML
parser, Node's WHATWG `URL` class, the express framework) are modelled:
puppeteer operations become explicit success/failure parameters and an
explicit engine state, cheerio's parse output becomes an abstract document
value, and Node's `URL` is modelled by an executable subset of the WHATWG
URL Standard sufficient for the http(s) URLs the specification discusses.
Timestamps are epoch milliseconds as integers.
-/

namespace OG

/-! ## Model of Node's WHATWG `URL` class (external dependency)

`resolve-url.ts` and `index.ts` call `new URL(input, base)` /
`new URL(input)`.  The functions below model the WHATWG URL Standard's
basic parser and serializer, restricted to the subset the repository
exercises: special schemes (`http`, `https`, `ws`, `wss`, `ftp`) with an
authority that carries no credentials (`@`), no `[...]` IPv6 hosts and an
ASCII host (no punycode step); non-special schemes are kept as an opaque
path; query and fragment strings are stored as given.  Inputs outside this
subset are rejected (`none`), which models the constructor throwing. -/

/-- Split a character list on a delimiter, `String.splitOn` style (an
empty input gives one empty piece).  The model uses list-backed string
helpers throughout so that every function evaluates by kernel reduction. -/
def splitCharAux (delim : Char) : List Char → List Char → List String
  | [], acc => [String.mk acc.reverse]
  | c :: rest, acc =>
    if c = delim then String.mk acc.reverse :: splitCharAux delim rest []
    else splitCharAux delim rest (c :: acc)

/-- Split a string on a delimiter character. -/
def splitChar (delim : Char) (s : String) : List String :=
  splitCharAux delim s.data []

/-- Does the first list start with the second? -/
def charsStart : List Char → List Char → Bool
  | _, [] => true
  | [], _ :: _ => false
  | c :: cs, p :: ps => c = p && charsStart cs ps

/-- Does string `s` start with string `p`? -/
def strStarts (s p : String) : Bool :=
  charsStart s.data p.data

/-- Parse a decimal digit list into a number. -/
def parseNatAux : List Char → Nat → Option Nat
  | [], acc => some acc
  | c :: rest, acc =>
    if c.isDigit then parseNatAux rest (acc * 10 + (c.toNat - 48)) else none

/-- Parse a nonempty all-decimal string into a number. -/
def parseNatDigits (s : String) : Option Nat :=
  match s.data with
  | [] => none
  | l => parseNatAux l 0

/-- A parsed URL record, following the WHATWG URL Standard's url record:
scheme, host, port (`none` when absent or equal to the scheme's default),
path segments, an opaque path for non-special schemes, query and fragment. -/
structure URLRec where
  scheme : String
  host : String
  port : Option Nat
  path : List String
  opaquePath : Option String
  query : Option String
  fragment : Option String
deriving Repr, DecidableEq

/-- The WHATWG special schemes this model supports (`file` is omitted). -/
def specialSchemes : List String := ["http", "https", "ws", "wss", "ftp"]

/-- Characters allowed in a scheme after the first (ASCII alphanumeric,
`+`, `-`, `.`). -/
def isSchemeChar (c : Char) : Bool :=
  c.isAlphanum || c = '+' || c = '-' || c = '.'

/-- Scan scheme characters up to a `:`; returns (scheme chars, remainder). -/
def splitSchemeAux : List Char → List Char → Option (List Char × List Char)
  | [], _ => none
  | c :: rest, acc =>
    if c = ':' then some (acc.reverse, rest)
    else if isSchemeChar c then splitSchemeAux rest (c :: acc)
    else none

/-- Split `scheme:rest` when the input starts with an ASCII alpha followed
by scheme characters and a colon; the scheme is lowercased. -/
def splitScheme (s : String) : Option (String × String) :=
  match s.data with
  | [] => none
  | c :: _ =>
    if c.isAlpha then
      (splitSchemeAux s.data []).map
        (fun p => (String.mk (p.1.map Char.toLower), String.mk p.2))
    else none

/-- Uppercase hexadecimal digit for a value below 16. -/
def hexDigit (n : Nat) : Char :=
  if n < 10 then Char.ofNat (48 + n) else Char.ofNat (55 + n)

/-- UTF-8 bytes of a character (1 to 4 bytes). -/
def utf8Bytes (c : Char) : List Nat :=
  let n := c.toNat
  if n < 0x80 then [n]
  else if n < 0x800 then [0xC0 + n / 0x40, 0x80 + n % 0x40]
  else if n < 0x10000 then
    [0xE0 + n / 0x1000, 0x80 + n / 0x40 % 0x40, 0x80 + n % 0x40]
  else
    [0xF0 + n / 0x40000, 0x80 + n / 0x1000 % 0x40, 0x80 + n / 0x40 % 0x40,
     0x80 + n % 0x40]

/-- Percent-encode one byte as `%HH` with uppercase hex. -/
def pctEncodeByte (b : Nat) : List Char :=
  ['%', hexDigit (b / 16 % 16), hexDigit (b % 16)]

/-- Membership in the WHATWG path percent-encode set: C0 controls, space,
`"`, `#`, `<`, `>`, `?`, backtick, both curly braces, DEL and all
non-ASCII. -/
def inPathEncodeSet (c : Char) : Bool :=
  c.toNat < 0x20 || c.toNat ≥ 0x7f || c = ' ' || c = '"' || c = '#' ||
  c = '<' || c = '>' || c = '?' || c.toNat = 0x60 || c.toNat = 0x7b ||
  c.toNat = 0x7d

/-- Percent-encode a path segment using the path percent-encode set
(existing `%` signs are left untouched, as in the standard). -/
def encodePathSeg (s : String) : String :=
  String.mk (s.data.flatMap
    (fun c => if inPathEncodeSet c then (utf8Bytes c).flatMap pctEncodeByte
              else [c]))

/-- Characters that terminate the authority portion. -/
def isAuthorityEnd (c : Char) : Bool :=
  c = '/' || c = '\\' || c = '?' || c = '#'

/-- Split a string at the first authority-terminating character:
(authority, remainder starting at the delimiter). -/
def splitAtAuthorityEnd (s : String) : String × String :=
  match s.data.findIdx? isAuthorityEnd with
  | none => (s, "")
  | some i => (String.mk (s.data.take i), String.mk (s.data.drop i))

/-- Split at the first `#` into (rest, fragment) — fragment `none` when
absent. -/
def splitFragment (s : String) : String × Option String :=
  match s.data.findIdx? (fun c => c = '#') with
  | none => (s, none)
  | some i => (String.mk (s.data.take i), some (String.mk (s.data.drop (i + 1))))

/-- Split at the first `?` into (path part, query) — query `none` when
absent. -/
def splitQuery (s : String) : String × Option String :=
  match s.data.findIdx? (fun c => c = '?') with
  | none => (s, none)
  | some i => (String.mk (s.data.take i), some (String.mk (s.data.drop (i + 1))))

/-- Forbidden host code points (WHATWG), plus `%` and non-ASCII, which the
model does not decode. -/
def forbiddenHostChar (c : Char) : Bool :=
  c.toNat ≤ 0x20 || c = '#' || c = '/' || c = ':' || c = '?' || c = '@' ||
  c = '[' || c = ']' || c = '\\' || c = '^' || c = '|' || c = '<' ||
  c = '>' || c = '%' || c.toNat ≥ 0x7f

/-- Parse a host: nonempty, no forbidden code points, lowercased. -/
def parseHost (s : String) : Option String :=
  if s = "" then none
  else if s.data.any forbiddenHostChar then none
  else some (String.mk (s.data.map Char.toLower))

/-- Default port of a special scheme. -/
def defaultPort : String → Option Nat
  | "http" => some 80
  | "https" => some 443
  | "ws" => some 80
  | "wss" => some 443
  | "ftp" => some 21
  | _ => none

/-- Parse a port string: empty means no port; otherwise decimal ≤ 65535. -/
def parsePort (s : String) : Option (Option Nat) :=
  if s = "" then some none
  else
    match parseNatDigits s with
    | some n => if n ≤ 65535 then some (some n) else none
    | none => none

/-- Split `host:port` at the first colon. -/
def splitHostPort (s : String) : String × Option String :=
  match s.data.findIdx? (fun c => c = ':') with
  | none => (s, none)
  | some i => (String.mk (s.data.take i), some (String.mk (s.data.drop (i + 1))))

/-- Parse the authority of a special-scheme URL: host and port, with the
port dropped when it equals the scheme's default.  Credentials (`@`) are
outside the modelled subset. -/
def parseAuthority (scheme : String) (s : String) : Option (String × Option Nat) :=
  if s.data.contains '@' then none
  else
    let hp := splitHostPort s
    match parseHost hp.1 with
    | none => none
    | some host =>
      match hp.2 with
      | none => some (host, none)
      | some ps =>
        match parsePort ps with
        | none => none
        | some port =>
          some (host, if port = defaultPort scheme then none else port)

/-- Single-dot path segment, including its percent-encodings. -/
def isDotSeg (s : String) : Bool :=
  s = "." || s = "%2e" || s = "%2E"

/-- Double-dot path segment, including its percent-encodings. -/
def isDotDotSeg (s : String) : Bool :=
  s = ".." || s = ".%2e" || s = ".%2E" || s = "%2e." || s = "%2E." ||
  s = "%2e%2e" || s = "%2e%2E" || s = "%2E%2e" || s = "%2E%2E"

/-- Append one raw segment to an accumulated path, applying the WHATWG
path state's dot-segment rules; `isLast` marks the final segment. -/
def appendSeg (acc : List String) (isLast : Bool) (s : String) : List String :=
  if isDotDotSeg s then
    if isLast then acc.dropLast ++ [""] else acc.dropLast
  else if isDotSeg s then
    if isLast then acc ++ [""] else acc
  else acc ++ [encodePathSeg s]

/-- Process raw segments onto an accumulated path. -/
def processSegs : List String → List String → List String
  | acc, [] => acc
  | acc, [s] => appendSeg acc true s
  | acc, s :: rest => processSegs (appendSeg acc false s) rest

/-- Split a path string into raw segments; for special schemes `\` acts
as `/`. -/
def rawSegments (p : String) : List String :=
  splitChar '/' (String.mk (p.data.map (fun c => if c = '\\' then '/' else c)))

/-- Parse the path/query/fragment portion that follows an authority (the
remainder starts with a delimiter or is empty).  An empty remainder gives
the single empty segment, serialized as `/`. -/
def parsePathEtc (rest : String) : List String × Option String × Option String :=
  let pf := splitFragment rest
  let pq := splitQuery pf.1
  let segs := rawSegments pq.1
  let segs := if segs.head? = some "" then segs.tail else segs
  (processSegs [] (if pq.1 = "" then [""] else segs), pq.2, pf.2)

/-- Parse what follows `scheme:` for a special scheme: skip any leading
slashes (the special-authority-ignore-slashes state), then authority, then
path/query/fragment. -/
def parseSpecialAfterScheme (scheme rest : String) : Option URLRec :=
  let rest := String.mk (rest.data.dropWhile (fun c => c = '/' || c = '\\'))
  let ar := splitAtAuthorityEnd rest
  match parseAuthority scheme ar.1 with
  | none => none
  | some hp =>
    let pqf := parsePathEtc ar.2
    some { scheme := scheme, host := hp.1, port := hp.2, path := pqf.1,
           opaquePath := none, query := pqf.2.1, fragment := pqf.2.2 }

/-- Does the string start with `/` or `\`? -/
def startsSlash (s : String) : Bool :=
  strStarts s "/" || strStarts s "\\"

/-- Does the string start with two slash-like characters? -/
def startsSlash2 (s : String) : Bool :=
  startsSlash s && startsSlash (String.mk s.data.tail)

/-- Resolve an input with no scheme (or a same-special-scheme input that
lacks `//`) against a parsed base, following the WHATWG relative state. -/
def parseRelative (base : URLRec) (input : String) : Option URLRec :=
  if base.opaquePath.isSome then none
  else if startsSlash2 input then parseSpecialAfterScheme base.scheme input
  else
    let pf := splitFragment input
    if pf.1 = "" then some { base with fragment := pf.2 }
    else if startsSlash pf.1 then
      let pq := splitQuery pf.1
      some { base with path := processSegs [] (rawSegments pq.1).tail,
                       query := pq.2, fragment := pf.2 }
    else if strStarts pf.1 "?" then
      some { base with query := (splitQuery pf.1).2, fragment := pf.2 }
    else
      let pq := splitQuery pf.1
      some { base with path := processSegs base.path.dropLast (rawSegments pq.1),
                       query := pq.2, fragment := pf.2 }

/-- Parse an input that carries a scheme.  A special scheme equal to an
available base's scheme without `//` re-enters relative parsing; other
special schemes parse an authority; non-special schemes keep an opaque
path (stored as given in this model). -/
def parseWithScheme (sch rest : String) (baseRec : Option URLRec) : Option URLRec :=
  if specialSchemes.contains sch then
    match baseRec with
    | some b =>
      if b.scheme = sch && !strStarts rest "//" then parseRelative b rest
      else parseSpecialAfterScheme sch rest
    | none => parseSpecialAfterScheme sch rest
  else
    let pf := splitFragment rest
    let pq := splitQuery pf.1
    some { scheme := sch, host := "", port := none, path := [],
           opaquePath := some pq.1, query := pq.2, fragment := pf.2 }

/-- Parse an absolute URL (no base), as `new URL(input)`. -/
def parseAbsolute (s : String) : Option URLRec :=
  match splitScheme s with
  | some p => parseWithScheme p.1 p.2 none
  | none => none

/-- Model of `new URL(input, base)`: `none` models the constructor
throwing `Invalid URL`. -/
def parseURL (input : String) (base : Option String) : Option URLRec :=
  let baseRec := base.bind parseAbsolute
  match splitScheme input with
  | some p => parseWithScheme p.1 p.2 baseRec
  | none => baseRec.bind (fun b => parseRelative b input)

/-- Serialize a path segment list (each segment preceded by `/`). -/
def serializePath (segs : List String) : String :=
  segs.foldl (fun acc s => acc ++ "/" ++ s) ""

/-- Model of `url.toString()`: the WHATWG URL serializer. -/
def serializeURL (u : URLRec) : String :=
  let q := match u.query with | some s => "?" ++ s | none => ""
  let f := match u.fragment with | some s => "#" ++ s | none => ""
  match u.opaquePath with
  | some op => u.scheme ++ ":" ++ op ++ q ++ f
  | none =>
    let p := match u.port with | some n => ":" ++ toString n | none => ""
    u.scheme ++ "://" ++ u.host ++ p ++ serializePath u.path ++ q ++ f

/-! ## resolve-url.ts -/

/-- `resolveUrl(baseUrl, relativeUrl)` from `resolve-url.ts`: a null or
empty candidate is returned as-is (`if (!relativeUrl) return relativeUrl`);
otherwise `new URL(relativeUrl, baseUrl).toString()` is returned, and the
candidate itself is returned if the constructor throws.  Pure: the Lean
function is the whole behavior, matching the absence of side effects. -/
def resolveUrl (baseUrl : String) (relativeUrl : Option String) : Option String :=
  match relativeUrl with
  | none => none
  | some r =>
    if r = "" then some r
    else
      match parseURL r (some baseUrl) with
      | some u => some (serializeURL u)
      | none => some r

/-! ## fetch-og.ts — metadata extraction

The cheerio calls in `fetchOG` (lines 37-48) query the parsed HTML only
through `$('meta[property=...]').attr('content')`,
`$('meta[name=...]').attr('content')` and `$('title').first().text()`.
The cheerio parse output is therefore modelled as the list of meta tags in
document order (each with its optional `property`, `name` and `content`
attributes) together with the text of the first `title` element (the empty
string when there is none, as `.text()` returns). -/

/-- One `<meta>` tag as cheerio exposes it: optional `property`, `name`
and `content` attributes. -/
structure MetaTag where
  property : Option String
  name : Option String
  content : Option String
deriving Repr, DecidableEq

/-- The parsed document: meta tags in document order and the text of the
first `title` element (empty string when no `title` is present). -/
structure Doc where
  metas : List MetaTag
  titleText : String
deriving Repr, DecidableEq

/-- JavaScript truthiness of a string-or-undefined value: `undefined` and
the empty string are falsy. -/
def jsTruthy : Option String → Bool
  | none => false
  | some s => s != ""

/-- JavaScript `a || b` on string-or-undefined values. -/
def jsOr (a b : Option String) : Option String :=
  if jsTruthy a then a else b

/-- JavaScript `a || b` with a plain-string right operand. -/
def jsOrStr (a : Option String) (b : String) : String :=
  if jsTruthy a then a.getD b else b

/-- `$('meta[attr="v"]').attr('content')`: the `content` attribute of the
first meta tag whose selected attribute equals `v`; `none` models
`undefined` (no such tag, or no `content` attribute on it). -/
def attrFirst (d : Doc) (sel : MetaTag → Option String) (v : String) : Option String :=
  (d.metas.find? (fun m => sel m == some v)).bind (fun m => m.content)

/-- The `meta` helper of `fetchOG` (line 39):
`$('meta[property="p"]').attr('content') ||
 $('meta[name="p"]').attr('content') || null`. -/
def metaContent (d : Doc) (p : String) : Option String :=
  jsOr (attrFirst d (fun m => m.property) p)
    (jsOr (attrFirst d (fun m => m.name) p) none)

/-- The object literal `fetchOG` returns on success (lines 41-48).
`url` holds the page URL that was fetched; `d` the parsed document. -/
structure OGResult where
  title : Option String
  description : Option String
  image : Option String
  url : String
  siteName : Option String
  type : Option String
deriving Repr, DecidableEq

/-- JavaScript `s || null` for a plain string. -/
def strTruthy (s : String) : Option String :=
  if s = "" then none else some s

/-- The metadata-extraction expression of `fetchOG` (lines 41-48),
faithful to each `||` chain. -/
def extractOG (url : String) (d : Doc) : OGResult :=
  { title := jsOr (metaContent d "og:title")
      (jsOr (metaContent d "twitter:title") (strTruthy d.titleText))
    description := jsOr (metaContent d "og:description")
      (jsOr (metaContent d "description")
        (jsOr (metaContent d "twitter:description") none))
    image := jsOr (resolveUrl url (metaContent d "og:image"))
      (resolveUrl url (metaContent d "twitter:image"))
    url := jsOrStr (metaContent d "og:url") url
    siteName := metaContent d "og:site_name"
    type := jsOr (metaContent d "og:type") none }

/-! Definitions written from the specification's words (section 4.2), for
comparison with `extractOG`: "for each logical field, probe an ordered
list of metadata tag identifiers and return the first non-empty match",
each probe checking the `property` attribute and then the `name`
attribute. -/

/-- Modelled from the spec: return the first non-empty match in an ordered
candidate list (`none` and the empty string do not match). -/
def firstNonEmpty : List (Option String) → Option String
  | [] => none
  | a :: rest =>
    match a with
    | some s => if s = "" then firstNonEmpty rest else some s
    | none => firstNonEmpty rest

/-- Modelled from the spec: one metadata probe, checking a `property`
attribute match and then a `name` attribute match. -/
def specProbe (d : Doc) (p : String) : Option String :=
  firstNonEmpty [attrFirst d (fun m => m.property) p,
                 attrFirst d (fun m => m.name) p]

/-- Modelled from the spec: title priority
`og:title` → `twitter:title` → page `title` text → null. -/
def specTitle (d : Doc) : Option String :=
  firstNonEmpty [specProbe d "og:title", specProbe d "twitter:title",
                 some d.titleText]

/-- Modelled from the spec: description priority
`og:description` → generic `description` → `twitter:description` → null. -/
def specDescription (d : Doc) : Option String :=
  firstNonEmpty [specProbe d "og:description", specProbe d "description",
                 specProbe d "twitter:description"]

/-! ## fetch-og.ts — the pipeline and its browsing context

`fetchOG` (lines 6-53) acquires the shared browser, opens a fresh
browsing context, and inside a `try` opens a page, configures it, navigates
with a 30 s timeout, reads the HTML, closes page and context and extracts;
the `catch` closes the context and returns `undefined`.  The puppeteer
calls are modelled by explicit outcomes: each awaited engine step either
succeeds or throws, and navigation can additionally time out.  The engine
state counts open browsing contexts, so leak-freedom is the statement that
the count returns to its starting value. -/

/-- Outcome of `page.goto` (line 27-30): success, a navigation error, or
expiry of the 30000 ms timeout. -/
inductive NavOutcome
  | ok
  | navError
  | timeout
deriving Repr, DecidableEq

/-- Which engine steps of one `fetchOG` run succeed; `doc` is the cheerio
parse of the HTML that `page.content()` returns when reached. -/
structure FetchEnv where
  newPageOk : Bool
  setupOk : Bool
  nav : NavOutcome
  contentOk : Bool
  doc : Doc
deriving Repr, DecidableEq

/-- Engine-level state observable across a fetch: the number of open
browsing contexts. -/
structure EngineState where
  openContexts : Nat
deriving Repr, DecidableEq

/-- `context.close()`. -/
def closeContext (st : EngineState) : EngineState :=
  { openContexts := st.openContexts - 1 }

/-- The navigation timeout of `fetchOG` in milliseconds (line 29). -/
def fetchNavTimeoutMs : Nat := 30000

/-- `fetchOG(url)` (lines 6-53): `none` models the `catch` branch
returning `undefined`; the context opened at the start is closed on every
path (line 35 on success, line 50 in the catch). -/
def fetchOG (env : FetchEnv) (url : String) (st : EngineState) :
    Option OGResult × EngineState :=
  let st1 : EngineState := { openContexts := st.openContexts + 1 }
  if !env.newPageOk then (none, closeContext st1)
  else if !env.setupOk then (none, closeContext st1)
  else
    match env.nav with
    | NavOutcome.navError => (none, closeContext st1)
    | NavOutcome.timeout => (none, closeContext st1)
    | NavOutcome.ok =>
      if !env.contentOk then (none, closeContext st1)
      else (some (extractOG url env.doc), closeContext st1)

/-! ## get-browser.ts — the engine adapter

`getBrowser` (lines 56-77 of the scraper sources) memoizes a launch
promise in the module-level `browserPromise`.  The launch either resolves
to a browser (on which a `disconnected` listener is installed that resets
`browserPromise` to `null`) or rejects — and a rejected promise stays in
`browserPromise`, since the `.then` continuation that installs the
listener never runs and nothing else clears the variable.  The promise is
modelled as a handle that is either a live browser or a failed launch;
`launchOk` says whether the launch a call might start would succeed, and
`nextLaunchId` counts launches so that starting a fresh launch is
observable. -/

/-- A memoized launch handle: the settled `browserPromise`. -/
inductive BrowserHandle
  | live (id : Nat)
  | failedLaunch (id : Nat)
deriving Repr, DecidableEq

/-- The adapter's module state: `browserPromise` and a launch counter. -/
structure AdapterState where
  browserPromise : Option BrowserHandle
  nextLaunchId : Nat
deriving Repr, DecidableEq

/-- `getBrowser()` (lines 58-77): returns the memoized handle when one is
present; otherwise starts a launch, stores its handle and returns it. -/
def getBrowser (launchOk : Bool) (st : AdapterState) :
    BrowserHandle × AdapterState :=
  match st.browserPromise with
  | some h => (h, st)
  | none =>
    let h := if launchOk then BrowserHandle.live st.nextLaunchId
             else BrowserHandle.failedLaunch st.nextLaunchId
    (h, { browserPromise := some h, nextLaunchId := st.nextLaunchId + 1 })

/-- The `disconnected` event (lines 69-71): its listener sets
`browserPromise = null`.  The listener exists only for a successfully
launched browser, so the event can only fire — and the state can only be
re-armed — when the memoized handle is a live one. -/
def onDisconnected (st : AdapterState) : AdapterState :=
  match st.browserPromise with
  | some (BrowserHandle.live _) => { st with browserPromise := none }
  | _ => st

/-! ## server.ts — sessions, store and routes

`BrowserSession` owns nullable `browser` and `page` handles, a creation
time and a last-activity time; the handles are modelled as presence flags
(their puppeteer internals are external) and times as epoch milliseconds.
The `browserSessions` map is modelled as a list of sessions keyed by their
`sessionId` (a JS `Map` with string keys; each stored session's own
`sessionId` field equals its key). -/

/-- A `BrowserSession` (server.ts lines 39-157). -/
structure Session where
  sessionId : String
  hasBrowser : Bool
  hasPage : Bool
  createdAt : Int
  lastActivity : Int
deriving Repr, DecidableEq

/-- The `browserSessions` map, in insertion order. -/
abbrev SessionStore := List Session

/-- `browserSessions.get(id)`. -/
def storeFind (store : SessionStore) (id : String) : Option Session :=
  store.find? (fun s => s.sessionId == id)

/-- `browserSessions.delete(id)`. -/
def storeErase (store : SessionStore) (id : String) : SessionStore :=
  store.filter (fun s => s.sessionId != id)

/-- `browserSessions.set(id, s)` on an existing key: the stored object is
replaced (in JS the very object is mutated in place). -/
def storeSet (store : SessionStore) (id : String) (s : Session) : SessionStore :=
  store.map (fun t => if t.sessionId == id then s else t)

/-- `new BrowserSession(sessionId)` (lines 46-50): null handles, both
timestamps set to the current time. -/
def mkSession (id : String) (now : Int) : Session :=
  { sessionId := id, hasBrowser := false, hasPage := false,
    createdAt := now, lastActivity := now }

/-- `initialize()` (lines 52-76): launch the dedicated browser, then open
a page and set the viewport; any throw is caught and reported as `false`.
A launch failure leaves both handles null; a page failure leaves the
browser handle set (the catch does not tear it down). -/
def initializeSession (launchOk newPageOk : Bool) (s : Session) :
    Bool × Session :=
  if launchOk then
    let s1 := { s with hasBrowser := true }
    if newPageOk then (true, { s1 with hasPage := true })
    else (false, s1)
  else (false, s)

/-- An HTTP reply of the session-control routes: status code and the
`error` field of the JSON body, when present. -/
structure ApiResponse where
  status : Nat
  error : Option String
deriving Repr, DecidableEq

/-- `POST /api/session/create` (lines 162-183): generate an id, build a
session, initialize it; on failure reply 500 and store nothing; only on
success `browserSessions.set` the session (a fresh uuid key appends). -/
def createRoute (store : SessionStore) (newId : String) (now : Int)
    (launchOk newPageOk : Bool) : ApiResponse × SessionStore :=
  let r := initializeSession launchOk newPageOk (mkSession newId now)
  if r.1 then ({ status := 200, error := none }, store ++ [r.2])
  else ({ status := 500, error := some "Failed to initialize browser session" },
        store)

/-- The interaction routes of server.ts. -/
inductive Interaction
  | navigate
  | click
  | typeText
  | scroll
  | executeScript
  | screenshot
  | closeSession
deriving Repr, DecidableEq

/-- Whether the route validates a request body before the session lookup
(navigate: `url`; click: `x`,`y`; type: `text`; scroll: `deltaY`;
execute: `script`).  Screenshot and close have no body. -/
def requiresBody : Interaction → Bool
  | Interaction.navigate => true
  | Interaction.click => true
  | Interaction.typeText => true
  | Interaction.scroll => true
  | Interaction.executeScript => true
  | Interaction.screenshot => false
  | Interaction.closeSession => false

/-- One session-control route (lines 186-383), shared shape: a falsy
`sessionId` gives 400; an invalid body (where one is validated) gives 400;
a missing map entry gives 404 `Session not found`; otherwise the session
method runs, and any throw from it becomes a 500 in the route's catch.
The methods behind navigate, click, type, scroll and execute (lines
78-88, 118-149) throw when `this.page` is null, else assign
`this.lastActivity = new Date()` and only then run engine work (`goto`,
`mouse.click`, `keyboard.type`, `mouse.wheel`, `evaluate`, then
`getPageInfo`); `actionOk` says whether that post-refresh engine work all
succeeds, and since the session object is mutated in place the refreshed
`lastActivity` stays stored even on a 500.  The screenshot route instead
calls `getPageInfo` (lines 103-116) directly, which awaits
`this.page.title()` before `getScreenshot` (lines 90-101) performs the
refresh: `preOk` says whether that pre-refresh `title()` call succeeds —
when it throws, the route replies 500 with `lastActivity` untouched —
and `actionOk` covers the engine work after the refresh (the capture).
`preOk` is unused by the five methods that refresh first.  The
`getScreenshot` call inside `getPageInfo` re-assigns `lastActivity` a few
milliseconds later; the model uses the single request time `now` for both
assignments.  `DELETE /api/session/:id` closes the browser and deletes
the entry. -/
def interactionRoute (k : Interaction) (bodyValid : Bool)
    (store : SessionStore) (id : String) (now : Int) (preOk actionOk : Bool) :
    ApiResponse × SessionStore :=
  if id == "" then
    ({ status := 400, error := some "Session ID is required" }, store)
  else if requiresBody k && !bodyValid then
    ({ status := 400, error := some "invalid body" }, store)
  else
    match storeFind store id with
    | none => ({ status := 404, error := some "Session not found" }, store)
    | some s =>
      match k with
      | Interaction.closeSession =>
        ({ status := 200, error := none }, storeErase store id)
      | Interaction.screenshot =>
        if !s.hasPage then
          ({ status := 500, error := some "Browser session not initialized" },
           store)
        else if !preOk then
          ({ status := 500, error := some "action failed" }, store)
        else
          let store' := storeSet store id { s with lastActivity := now }
          if actionOk then ({ status := 200, error := none }, store')
          else ({ status := 500, error := some "action failed" }, store')
      | _ =>
        if !s.hasPage then
          ({ status := 500, error := some "Browser session not initialized" },
           store)
        else
          let store' := storeSet store id { s with lastActivity := now }
          if actionOk then ({ status := 200, error := none }, store')
          else ({ status := 500, error := some "action failed" }, store')

/-- The sweep interval of the cleanup timer in milliseconds
(server.ts line 417: `5 * 60 * 1000`). -/
def cleanupIntervalMs : Int := 5 * 60 * 1000

/-- The inactivity threshold in milliseconds
(server.ts line 408: `30 * 60 * 1000`). -/
def maxInactiveTimeMs : Int := 30 * 60 * 1000

/-- The eviction sweep body (lines 406-417): for every stored session with
`now - lastActivity > maxInactiveTime`, close it and delete its entry.
Returns (remaining store, sessions closed and removed). -/
def sweepExpired (now : Int) (store : SessionStore) :
    SessionStore × SessionStore :=
  (store.filter (fun s => !decide (now - s.lastActivity > maxInactiveTimeMs)),
   store.filter (fun s => decide (now - s.lastActivity > maxInactiveTimeMs)))

/-! ## index.ts — the OG metadata route

`GET /api/og/*` (index.ts lines 20-50) decodes the wildcard parameter,
validates it with `new URL(decodedUrl)`, awaits `fetchOG`, and replies
`res.send({og, success: true})` on success, `500 {success:false}` when
`fetchOG` returned `undefined`, or 400 for a missing/invalid URL.  The
JSON bodies are modelled explicitly so the payload shape is provable. -/

/-- A JSON value (the subset these routes emit). -/
inductive JVal
  | jnull
  | jbool (b : Bool)
  | jstr (s : String)
  | jobj (fields : List (String × JVal))

/-- Serialization of a nullable string field. -/
def optStr : Option String → JVal
  | none => JVal.jnull
  | some s => JVal.jstr s

/-- The JSON object for a `fetchOG` result, fields in the literal's order
(fetch-og.ts lines 41-48). -/
def ogToJVal (r : OGResult) : JVal :=
  JVal.jobj [("title", optStr r.title), ("description", optStr r.description),
             ("image", optStr r.image), ("url", JVal.jstr r.url),
             ("siteName", optStr r.siteName), ("type", optStr r.type)]

/-- Field lookup in a JSON object (first match); `none` for a missing key
or a non-object. -/
def jlookup (j : JVal) (k : String) : Option JVal :=
  match j with
  | JVal.jobj fs => (fs.find? (fun p => p.1 == k)).map (fun p => p.2)
  | _ => none

/-- Value of a hexadecimal digit character. -/
def hexVal (c : Char) : Option Nat :=
  if 48 ≤ c.toNat && c.toNat ≤ 57 then some (c.toNat - 48)
  else if 65 ≤ c.toNat && c.toNat ≤ 70 then some (c.toNat - 55)
  else if 97 ≤ c.toNat && c.toNat ≤ 102 then some (c.toNat - 87)
  else none

/-- Percent-decoding worker: `%HH` becomes the code point `HH`; a `%` not
followed by two hex digits is malformed (`none` models `URIError`).
Byte-level model: multi-byte UTF-8 escape sequences decode to one
character per byte; the claims only exercise ASCII escapes. -/
def percentDecodeAux : List Char → Option (List Char)
  | [] => some []
  | '%' :: a :: b :: rest =>
    match hexVal a, hexVal b with
    | some ha, some hb =>
      (percentDecodeAux rest).map (fun l => Char.ofNat (ha * 16 + hb) :: l)
    | _, _ => none
  | '%' :: _ => none
  | c :: rest => (percentDecodeAux rest).map (fun l => c :: l)

/-- Model of JavaScript `decodeURIComponent`; `none` models a thrown
`URIError`. -/
def decodeURIComponent (s : String) : Option String :=
  (percentDecodeAux s.data).map String.mk

/-- `GET /api/og/*` (index.ts lines 20-50).  `raw` is `req.params[0]`;
`fetchResult` is the awaited outcome of `fetchOG` on the decoded URL
(`none` = the pipeline's `undefined`).  Returns status and JSON body. -/
def ogRoute (raw : String) (fetchResult : String → Option OGResult) :
    Nat × JVal :=
  if raw == "" then
    (400, JVal.jobj [("error", JVal.jstr "URL parameter is required")])
  else
    match decodeURIComponent raw with
    | none => (400, JVal.jobj [("error", JVal.jstr "Invalid URL")])
    | some decodedUrl =>
      match parseURL decodedUrl none with
      | none => (400, JVal.jobj [("error", JVal.jstr "Invalid URL")])
      | some _ =>
        match fetchResult decodedUrl with
        | none => (500, JVal.jobj [("success", JVal.jbool false)])
        | some og =>
          (200, JVal.jobj [("og", ogToJVal og), ("success", JVal.jbool true)])

/-! ## fetch-og.ts — the request filter

The `request` handler installed by `fetchOG` (lines 19-25) aborts a
request when its `resourceType()` is in the blocked list and continues it
otherwise.  Puppeteer's resource types are enumerated and mapped to the
strings `resourceType()` returns. -/

/-- Puppeteer's resource types. -/
inductive ResourceType
  | document
  | stylesheet
  | image
  | media
  | font
  | script
  | texttrack
  | xhr
  | fetch
  | prefetch
  | eventsource
  | websocket
  | manifest
  | signedexchange
  | ping
  | cspviolationreport
  | preflight
  | other
deriving Repr, DecidableEq

/-- The string `req.resourceType()` returns. -/
def resourceTypeName : ResourceType → String
  | ResourceType.document => "document"
  | ResourceType.stylesheet => "stylesheet"
  | ResourceType.image => "image"
  | ResourceType.media => "media"
  | ResourceType.font => "font"
  | ResourceType.script => "script"
  | ResourceType.texttrack => "texttrack"
  | ResourceType.xhr => "xhr"
  | ResourceType.fetch => "fetch"
  | ResourceType.prefetch => "prefetch"
  | ResourceType.eventsource => "eventsource"
  | ResourceType.websocket => "websocket"
  | ResourceType.manifest => "manifest"
  | ResourceType.signedexchange => "signedexchange"
  | ResourceType.ping => "ping"
  | ResourceType.cspviolationreport => "cspviolationreport"
  | ResourceType.preflight => "preflight"
  | ResourceType.other => "other"

/-- What the handler does with a request: `req.abort()` or
`req.continue()`. -/
inductive RequestAction
  | abort
  | cont
deriving Repr, DecidableEq

/-- The literal blocked list of fetch-og.ts line 20. -/
def blockedResourceTypes : List String :=
  ["image", "stylesheet", "font", "media", "websocket", "xhr", "fetch"]

/-- The `request` handler (lines 19-25). -/
def onRequest (rt : ResourceType) : RequestAction :=
  if blockedResourceTypes.contains (resourceTypeName rt) then
    RequestAction.abort
  else RequestAction.cont

/-! ## Helper lemmas -/

/-- A JS `||` chain step agrees with `firstNonEmpty`. -/
theorem jsOr_firstNonEmpty (a : Option String) (l : List (Option String)) :
    jsOr a (firstNonEmpty l) = firstNonEmpty (a :: l) := by
  cases a with
  | none => simp [jsOr, jsTruthy, firstNonEmpty]
  | some s =>
    by_cases hs : s = ""
    · simp [jsOr, jsTruthy, firstNonEmpty, hs]
    · simp [jsOr, jsTruthy, firstNonEmpty, hs]

/-- Terminal `|| null` agrees with a singleton `firstNonEmpty`. -/
theorem jsOr_none_firstNonEmpty (a : Option String) :
    jsOr a none = firstNonEmpty [a] := by
  have := jsOr_firstNonEmpty a []
  simpa [firstNonEmpty] using this

/-- Terminal `|| text || null` agrees with `firstNonEmpty` ending in the
text candidate. -/
theorem strTruthy_firstNonEmpty (t : String) :
    strTruthy t = firstNonEmpty [some t] := by
  by_cases ht : t = "" <;> simp [strTruthy, firstNonEmpty, ht]

/-- The `meta` helper equals the spec-worded probe. -/
theorem metaContent_eq_specProbe (d : Doc) (p : String) :
    metaContent d p = specProbe d p := by
  unfold metaContent specProbe
  rw [jsOr_none_firstNonEmpty, jsOr_firstNonEmpty]

/-- `firstNonEmpty` never returns the empty string. -/
theorem firstNonEmpty_ne_empty (l : List (Option String)) (s : String)
    (h : firstNonEmpty l = some s) : s ≠ "" := by
  induction l with
  | nil => simp [firstNonEmpty] at h
  | cons a rest ih =>
    cases a with
    | none => exact ih (by simpa [firstNonEmpty] using h)
    | some t =>
      by_cases ht : t = ""
      · exact ih (by simpa [firstNonEmpty, ht] using h)
      · have : some t = some s := by simpa [firstNonEmpty, ht] using h
        cases this
        exact ht

/-- The `meta` helper never returns the empty string. -/
theorem metaContent_ne_empty (d : Doc) (p : String) (s : String)
    (h : metaContent d p = some s) : s ≠ "" := by
  rw [metaContent_eq_specProbe] at h
  exact firstNonEmpty_ne_empty _ _ h

/-- The extracted title follows the spec's priority chain. -/
theorem extractOG_title (url : String) (d : Doc) :
    (extractOG url d).title = specTitle d := by
  unfold extractOG specTitle
  rw [← metaContent_eq_specProbe, ← metaContent_eq_specProbe,
    strTruthy_firstNonEmpty, jsOr_firstNonEmpty, jsOr_firstNonEmpty]

/-- The extracted description follows the spec's priority chain. -/
theorem extractOG_description (url : String) (d : Doc) :
    (extractOG url d).description = specDescription d := by
  unfold extractOG specDescription
  rw [← metaContent_eq_specProbe, ← metaContent_eq_specProbe,
    ← metaContent_eq_specProbe, jsOr_none_firstNonEmpty, jsOr_firstNonEmpty,
    jsOr_firstNonEmpty]

/-! ## Claims -/

/-- C1: the Metadata Extractor picks title and description by the fixed
priority fallback chains (title: `og:title` → `twitter:title` → `title`
element text → null; description: `og:description` → `description` →
`twitter:description` → null), each returning the first non-empty match;
in particular with both `og:title` and `twitter:title` present and
different the title is the `og:title` value, and with only a `title`
element present the title is its text. -/
theorem c1_extractor_priority_chain :
    (∀ url d, (extractOG url d).title = specTitle d) ∧
    (∀ url d, (extractOG url d).description = specDescription d) ∧
    (∀ url d t t', metaContent d "og:title" = some t →
      metaContent d "twitter:title" = some t' → t ≠ t' →
      (extractOG url d).title = some t) ∧
    (∀ url d, metaContent d "og:title" = none →
      metaContent d "twitter:title" = none → d.titleText ≠ "" →
      (extractOG url d).title = some d.titleText) := by
  refine ⟨extractOG_title, extractOG_description, ?_, ?_⟩
  · intro url d t t' h1 _ _
    have ht : t ≠ "" := metaContent_ne_empty d "og:title" t h1
    simp [extractOG, h1, jsOr, jsTruthy, ht]
  · intro url d h1 h2 h3
    simp [extractOG, h1, h2, jsOr, jsTruthy, strTruthy, h3]

/-- Witness for C1 at concrete documents: one with both `og:title` and
`twitter:title`, one with only a `title` element. -/
theorem c1_extractor_priority_chain_witness :
    (extractOG "https://e.com/"
      { metas := [{ property := some "og:title", name := none, content := some "A" },
                  { property := some "twitter:title", name := none, content := some "B" }],
        titleText := "" }).title = some "A" ∧
    (extractOG "https://e.com/" { metas := [], titleText := "My Page" }).title
      = some "My Page" :=
  ⟨c1_extractor_priority_chain.2.2.1 "https://e.com/" _ "A" "B"
      (by decide) (by decide) (by decide),
   c1_extractor_priority_chain.2.2.2 "https://e.com/" _
      (by decide) (by decide) (by decide)⟩

/-- C2 counterexample: an empty candidate is returned as the empty string,
not as null, and `"not a url!!"` is accepted by the URL parser as a path
relative to the base (spaces percent-encoded), so it is not returned
unchanged. -/
theorem c2_resolveUrl_claim_counterexample :
    resolveUrl "https://a.com" (some "") = some "" ∧
    (some "" : Option String) ≠ none ∧
    resolveUrl "https://a.com" (some "not a url!!")
      = some "https://a.com/not%20a%20url!!" ∧
    ("https://a.com/not%20a%20url!!" : String) ≠ "not a url!!" := by
  refine ⟨by decide, by decide, by decide, by decide⟩

/-- C2 (amended): `resolveUrl(base, candidate)` returns the candidate
unchanged when it is null or empty (null stays null, the empty string
stays the empty string); otherwise, when the candidate parses as an
absolute URL or relative to the base it returns the normalized absolute
URL string, and when it cannot be parsed under any interpretation it
returns the candidate unchanged rather than throwing; it is a pure
function.  Concretely `resolveUrl("https://a.com/x/", "img.png")` is
`"https://a.com/x/img.png"`, `resolveUrl("https://a.com", null)` is null,
`resolveUrl("https://a.com", "not a url!!")` is
`"https://a.com/not%20a%20url!!"` (the WHATWG parser accepts it as a
relative path), and an unparsable candidate such as `"https://"` is
returned unchanged. -/
theorem c2_resolveUrl_amended :
    (∀ base, resolveUrl base none = none) ∧
    (∀ base, resolveUrl base (some "") = some "") ∧
    (∀ base r u, r ≠ "" → parseURL r (some base) = some u →
      resolveUrl base (some r) = some (serializeURL u)) ∧
    (∀ base r, r ≠ "" → parseURL r (some base) = none →
      resolveUrl base (some r) = some r) ∧
    resolveUrl "https://a.com" none = none ∧
    resolveUrl "https://a.com/x/" (some "img.png")
      = some "https://a.com/x/img.png" ∧
    resolveUrl "https://a.com" (some "not a url!!")
      = some "https://a.com/not%20a%20url!!" ∧
    resolveUrl "https://a.com" (some "https://") = some "https://" := by
  refine ⟨fun base => rfl, fun base => by simp [resolveUrl], ?_, ?_,
    rfl, by decide, by decide, by decide⟩
  · intro base r u hr hp
    simp [resolveUrl, hr, hp]
  · intro base r hr hp
    simp [resolveUrl, hr, hp]

/-- Witness for C2 at concrete inputs: a candidate that parses relative to
the base, and one that fails to parse under any interpretation. -/
theorem c2_resolveUrl_amended_witness :
    resolveUrl "https://a.com/x/" (some "img.png")
      = some (serializeURL { scheme := "https", host := "a.com", port := none,
                             path := ["x", "img.png"], opaquePath := none,
                             query := none, fragment := none }) ∧
    resolveUrl "https://a.com" (some "https://") = some "https://" :=
  ⟨c2_resolveUrl_amended.2.2.1 "https://a.com/x/" "img.png"
      { scheme := "https", host := "a.com", port := none,
        path := ["x", "img.png"], opaquePath := none,
        query := none, fragment := none } (by decide) (by decide),
   c2_resolveUrl_amended.2.2.2.1 "https://a.com" "https://"
      (by decide) (by decide)⟩

/-- C3: each run of the eviction sweep (scheduled every 5 minutes) closes
and removes a session if and only if `now - lastActivity` exceeds the
fixed 30-minute inactivity threshold; a session within the threshold is
never evicted by the sweep. -/
theorem c3_sweep_eviction_iff :
    maxInactiveTimeMs = 30 * 60 * 1000 ∧
    cleanupIntervalMs = 5 * 60 * 1000 ∧
    ∀ now store s,
      (s ∈ (sweepExpired now store).2 ↔
        s ∈ store ∧ now - s.lastActivity > maxInactiveTimeMs) ∧
      (s ∈ (sweepExpired now store).1 ↔
        s ∈ store ∧ now - s.lastActivity ≤ maxInactiveTimeMs) := by
  refine ⟨rfl, rfl, ?_⟩
  intro now store s
  constructor
  · simp [sweepExpired, List.mem_filter]
  · simp [sweepExpired, List.mem_filter, not_lt]

/-- C4: every `fetchOG` run closes the browsing context it opened before
returning — the engine's open-context count returns to its starting value
on the success path and on every failure path — and a timed-out or failed
navigation yields the failure result `undefined` rather than a result. -/
theorem c4_fetchOG_closes_context :
    (∀ env url st, ((fetchOG env url st).2).openContexts = st.openContexts) ∧
    (∀ env url st, env.nav ≠ NavOutcome.ok → (fetchOG env url st).1 = none) ∧
    (∀ env url st, env.nav = NavOutcome.timeout → (fetchOG env url st).1 = none) ∧
    (∀ env url st, env.newPageOk = true → env.setupOk = true →
      env.nav = NavOutcome.ok → env.contentOk = true →
      (fetchOG env url st).1 = some (extractOG url env.doc)) ∧
    fetchNavTimeoutMs = 30000 := by
  refine ⟨?_, ?_, ?_, ?_, rfl⟩
  · intro env url st
    rcases env with ⟨np, su, nav, co, d⟩
    cases np <;> cases su <;> cases nav <;> cases co <;>
      simp [fetchOG, closeContext]
  · intro env url st h
    rcases env with ⟨np, su, nav, co, d⟩
    cases np <;> cases su <;> cases nav <;> cases co <;>
      simp_all [fetchOG, closeContext]
  · intro env url st h
    rcases env with ⟨np, su, nav, co, d⟩
    cases np <;> cases su <;> cases nav <;> cases co <;>
      simp_all [fetchOG, closeContext]
  · intro env url st h1 h2 h3 h4
    rcases env with ⟨np, su, nav, co, d⟩
    subst h1 h2 h3 h4
    simp [fetchOG]

/-- Witness for C4: a run whose navigation times out fails without
leaving a context open, and an all-success run extracts. -/
theorem c4_fetchOG_closes_context_witness :
    (fetchOG { newPageOk := true, setupOk := true, nav := NavOutcome.timeout,
               contentOk := true, doc := { metas := [], titleText := "" } }
      "https://never.example/" { openContexts := 0 }).1 = none ∧
    (fetchOG { newPageOk := true, setupOk := true, nav := NavOutcome.navError,
               contentOk := true, doc := { metas := [], titleText := "" } }
      "https://never.example/" { openContexts := 0 }).1 = none ∧
    (fetchOG { newPageOk := true, setupOk := true, nav := NavOutcome.ok,
               contentOk := true, doc := { metas := [], titleText := "T" } }
      "https://ok.example/" { openContexts := 0 }).1
      = some (extractOG "https://ok.example/" { metas := [], titleText := "T" }) :=
  ⟨c4_fetchOG_closes_context.2.2.1 _ _ _ (by decide),
   c4_fetchOG_closes_context.2.1 _ _ _ (by decide),
   c4_fetchOG_closes_context.2.2.2.1 _ _ _ (by decide) (by decide)
     (by decide) (by decide)⟩

/-- C5 counterexample: from an empty adapter state, a failing launch
leaves the rejected handle memoized; the next call — although a fresh
launch would now succeed — returns the same failed handle with the state
unchanged, so no fresh launch is triggered. -/
theorem c5_getBrowser_claim_counterexample :
    (getBrowser true
      (getBrowser false { browserPromise := none, nextLaunchId := 0 }).2).1
      = BrowserHandle.failedLaunch 0 ∧
    (getBrowser true
      (getBrowser false { browserPromise := none, nextLaunchId := 0 }).2).2
      = (getBrowser false { browserPromise := none, nextLaunchId := 0 }).2 ∧
    onDisconnected
      (getBrowser false { browserPromise := none, nextLaunchId := 0 }).2
      = (getBrowser false { browserPromise := none, nextLaunchId := 0 }).2 := by
  refine ⟨by decide, by decide, by decide⟩

/-- C5 (amended): `getBrowser` is a single-flight memoized initializer —
the first call starts a launch and stores its handle, and every later call
returns that same in-flight or settled handle; the memoized handle is
re-armed (so the next call launches afresh) only when a successfully
launched browser disconnects; when the launch fails, the rejected handle
stays memoized, no disconnect listener exists for it, and every subsequent
call returns the same failed handle without triggering a fresh launch. -/
theorem c5_getBrowser_amended :
    (∀ ok st h, st.browserPromise = some h → getBrowser ok st = (h, st)) ∧
    (∀ ok st, st.browserPromise = none →
      (getBrowser ok st).2.browserPromise = some (getBrowser ok st).1 ∧
      (getBrowser ok st).2.nextLaunchId = st.nextLaunchId + 1) ∧
    (∀ st i, st.browserPromise = some (BrowserHandle.live i) →
      (onDisconnected st).browserPromise = none) ∧
    (∀ st i, st.browserPromise = some (BrowserHandle.failedLaunch i) →
      onDisconnected st = st ∧
      ∀ ok, getBrowser ok st = (BrowserHandle.failedLaunch i, st)) := by
  refine ⟨?_, ?_, ?_, ?_⟩
  · intro ok st h hm
    simp [getBrowser, hm]
  · intro ok st hm
    cases ok <;> simp [getBrowser, hm]
  · intro st i hm
    simp [onDisconnected, hm]
  · intro st i hm
    exact ⟨by simp [onDisconnected, hm], fun ok => by simp [getBrowser, hm]⟩

/-- Witness for C5 (amended) at concrete states: memoized return, first
launch, disconnect re-arm, and a sticky failed launch. -/
theorem c5_getBrowser_amended_witness :
    getBrowser true { browserPromise := some (BrowserHandle.live 7), nextLaunchId := 8 }
      = (BrowserHandle.live 7,
         { browserPromise := some (BrowserHandle.live 7), nextLaunchId := 8 }) ∧
    (onDisconnected { browserPromise := some (BrowserHandle.live 7),
                      nextLaunchId := 8 }).browserPromise = none ∧
    onDisconnected { browserPromise := some (BrowserHandle.failedLaunch 3),
                     nextLaunchId := 4 }
      = { browserPromise := some (BrowserHandle.failedLaunch 3), nextLaunchId := 4 } :=
  ⟨c5_getBrowser_amended.1 true _ (BrowserHandle.live 7) (by decide),
   c5_getBrowser_amended.2.2.1 _ 7 (by decide),
   (c5_getBrowser_amended.2.2.2 _ 3 (by decide)).1⟩

/-- A sample successful extraction result, for the C6 counterexample and
witness. -/
def sampleOG : OGResult :=
  { title := some "T", description := some "D",
    image := some "https://a.com/i.png", url := "https://a.com/",
    siteName := some "S", type := some "website" }

/-- A fetch outcome that succeeds with `sampleOG` for every URL. -/
def constFetchSample : String → Option OGResult :=
  fun _ => some sampleOG

/-- C6 counterexample: for a request whose target decodes to a valid URL
and whose fetch succeeds, the 200 response body has no top-level `title`
field — the six metadata fields sit inside a nested `og` object
(`res.send({og, success: true})`), contradicting the claimed top-level
payload shape. -/
theorem c6_og_route_claim_counterexample :
    (ogRoute "https://a.com" constFetchSample).1 = 200 ∧
    jlookup (ogRoute "https://a.com" constFetchSample).2 "title" = none ∧
    jlookup (ogRoute "https://a.com" constFetchSample).2 "success"
      = some (JVal.jbool true) ∧
    jlookup (ogRoute "https://a.com" constFetchSample).2 "og"
      = some (ogToJVal sampleOG) := by
  exact ⟨rfl, rfl, rfl, rfl⟩

/-- C6 (amended): for every request `GET /api/og/<target>` whose target
decodes to a valid URL and whose fetch succeeds, the response is 200 with
body `{og: {title, description, image, url, siteName, type}, success:
true}` — the six metadata fields nested under the `og` key, with
`success: true` beside it at the top level. -/
theorem c6_og_route_amended :
    (∀ raw fetch u r, raw ≠ "" → decodeURIComponent raw = some u →
      (parseURL u none).isSome = true → fetch u = some r →
      ogRoute raw fetch
        = (200, JVal.jobj [("og", ogToJVal r), ("success", JVal.jbool true)])) ∧
    (∀ r, ogToJVal r
      = JVal.jobj [("title", optStr r.title), ("description", optStr r.description),
                   ("image", optStr r.image), ("url", JVal.jstr r.url),
                   ("siteName", optStr r.siteName), ("type", optStr r.type)]) := by
  refine ⟨?_, fun r => rfl⟩
  intro raw fetch u r hraw hdec hval hfetch
  obtain ⟨v, hv⟩ := Option.isSome_iff_exists.mp hval
  simp [ogRoute, hraw, hdec, hv, hfetch]

/-- Witness for C6 (amended) at a concrete request with a successful
fetch. -/
theorem c6_og_route_amended_witness :
    ogRoute "https://a.com" constFetchSample
      = (200, JVal.jobj [("og", ogToJVal sampleOG),
                         ("success", JVal.jbool true)]) :=
  c6_og_route_amended.1 "https://a.com" constFetchSample "https://a.com" sampleOG
    (by decide) (by decide) (by decide) (by decide)

/-- C7 counterexample: the filter continues requests of resource type
`script`, `prefetch` and `other` — all non-document subresource types —
so it is not the case that only the top-level document response is allowed
to complete. -/
theorem c7_filter_claim_counterexample :
    onRequest ResourceType.script = RequestAction.cont ∧
    onRequest ResourceType.prefetch = RequestAction.cont ∧
    onRequest ResourceType.other = RequestAction.cont ∧
    ResourceType.script ≠ ResourceType.document := by
  exact ⟨rfl, rfl, rfl, by decide⟩

/-- C7 (amended): during an OG fetch the installed resource filter aborts
exactly the requests whose resource type is `image`, `stylesheet`, `font`,
`media`, `websocket`, `xhr` or `fetch`; requests of every other resource
type — the document itself, but also `script`, `prefetch`, `other` and the
remaining types — are continued. -/
theorem c7_filter_amended :
    (∀ rt, onRequest rt = RequestAction.abort ↔
      (rt = ResourceType.image ∨ rt = ResourceType.stylesheet ∨
       rt = ResourceType.font ∨ rt = ResourceType.media ∨
       rt = ResourceType.websocket ∨ rt = ResourceType.xhr ∨
       rt = ResourceType.fetch)) ∧
    onRequest ResourceType.document = RequestAction.cont := by
  refine ⟨?_, rfl⟩
  intro rt
  cases rt <;> simp [onRequest, resourceTypeName, blockedResourceTypes]

/-- After deleting a key, lookup of that key fails. -/
theorem storeFind_storeErase (store : SessionStore) (id : String) :
    storeFind (storeErase store id) id = none := by
  unfold storeFind storeErase
  induction store with
  | nil => rfl
  | cons s rest ih =>
    rw [List.filter_cons]
    by_cases h : s.sessionId = id
    · simp [h, ih]
    · simp [h, List.find?_cons, ih]

/-- A found session carries the key it was looked up under. -/
theorem storeFind_sessionId (store : SessionStore) (id : String) (s : Session)
    (h : storeFind store id = some s) : s.sessionId = id := by
  unfold storeFind at h
  have := List.find?_some h
  simpa using this

/-- Replacing a present key makes lookup return the replacement. -/
theorem storeFind_storeSet (store : SessionStore) (id : String) (x s : Session)
    (hx : x.sessionId = id) (h : storeFind store id = some s) :
    storeFind (storeSet store id x) id = some x := by
  induction store with
  | nil => simp [storeFind] at h
  | cons t rest ih =>
    by_cases ht : t.sessionId = id
    · simp [storeSet, storeFind, List.find?_cons, ht, hx]
    · have h' : storeFind rest id = some s := by
        simpa [storeFind, List.find?_cons, ht] using h
      simpa [storeSet, storeFind, List.find?_cons, ht] using ih h'

/-- Any interaction route on a missing identifier (with its validation
passing) replies 404 `Session not found` and leaves the store unchanged. -/
theorem interactionRoute_notFound (k : Interaction) (bv : Bool)
    (store : SessionStore) (id : String) (now : Int) (pre ok : Bool)
    (hid : id ≠ "") (hbv : requiresBody k = true → bv = true)
    (h : storeFind store id = none) :
    interactionRoute k bv store id now pre ok
      = ({ status := 404, error := some "Session not found" }, store) := by
  have hb : (requiresBody k && !bv) = false := by
    cases hkb : requiresBody k
    · rfl
    · simp [hbv hkb]
  simp [interactionRoute, hid, hb, h]

/-- The close route on a present identifier replies 200 and erases the
entry. -/
theorem interactionRoute_close_found (store : SessionStore) (id : String)
    (now : Int) (hid : id ≠ "") (h : (storeFind store id).isSome = true) :
    interactionRoute Interaction.closeSession true store id now true true
      = ({ status := 200, error := none }, storeErase store id) := by
  obtain ⟨s, hs⟩ := Option.isSome_iff_exists.mp h
  simp [interactionRoute, hid, requiresBody, hs]

/-- C8: when session creation fails during browser or page setup, the
create route replies 500, the store is left unchanged and no entry exists
for the generated identifier; the entry is appended only after
initialization succeeds. -/
theorem c8_failed_create_no_entry :
    (∀ store id now npk,
      (createRoute store id now false npk).1.status = 500 ∧
      (createRoute store id now false npk).2 = store) ∧
    (∀ store id now,
      (createRoute store id now true false).1.status = 500 ∧
      (createRoute store id now true false).2 = store) ∧
    (∀ store id now lk npk, storeFind store id = none →
      ¬(lk = true ∧ npk = true) →
      storeFind (createRoute store id now lk npk).2 id = none) ∧
    (∀ store id now,
      (createRoute store id now true true).1.status = 200 ∧
      (createRoute store id now true true).2
        = store ++ [{ sessionId := id, hasBrowser := true, hasPage := true,
                      createdAt := now, lastActivity := now }]) := by
  refine ⟨?_, ?_, ?_, ?_⟩
  · intro store id now npk
    exact ⟨rfl, rfl⟩
  · intro store id now
    exact ⟨rfl, rfl⟩
  · intro store id now lk npk h hfail
    cases lk <;> cases npk
    · exact h
    · exact h
    · exact h
    · exact absurd ⟨rfl, rfl⟩ hfail
  · intro store id now
    exact ⟨rfl, rfl⟩

/-- Witness for C8: a failed create against an empty store leaves no
entry for the generated identifier. -/
theorem c8_failed_create_no_entry_witness :
    storeFind
      (createRoute [] "11111111-2222-3333-4444-555555555555" 1000 false true).2
      "11111111-2222-3333-4444-555555555555" = none :=
  c8_failed_create_no_entry.2.2.1 [] "11111111-2222-3333-4444-555555555555"
    1000 false true (by decide) (by decide)

/-- C9: after the close route succeeds for an identifier, every subsequent
interaction (navigate, click, type, scroll, execute, screenshot or another
close) on that identifier replies 404 `Session not found`; the same holds
for an identifier with no entry at all. -/
theorem c9_close_then_not_found :
    (∀ k bv store id now pre ok, id ≠ "" →
      (requiresBody k = true → bv = true) →
      storeFind store id = none →
      (interactionRoute k bv store id now pre ok).1
        = { status := 404, error := some "Session not found" } ∧
      (interactionRoute k bv store id now pre ok).2 = store) ∧
    (∀ store id now, id ≠ "" → (storeFind store id).isSome = true →
      (interactionRoute Interaction.closeSession true store id now
        true true).1.status = 200 ∧
      storeFind
        (interactionRoute Interaction.closeSession true store id now
          true true).2 id
        = none) ∧
    (∀ k bv store id now now' pre ok, id ≠ "" →
      (requiresBody k = true → bv = true) →
      (storeFind store id).isSome = true →
      (interactionRoute k bv
        (interactionRoute Interaction.closeSession true store id now
          true true).2
        id now' pre ok).1
        = { status := 404, error := some "Session not found" }) := by
  refine ⟨?_, ?_, ?_⟩
  · intro k bv store id now pre ok hid hbv h
    rw [interactionRoute_notFound k bv store id now pre ok hid hbv h]
    exact ⟨rfl, rfl⟩
  · intro store id now hid h
    rw [interactionRoute_close_found store id now hid h]
    exact ⟨rfl, storeFind_storeErase store id⟩
  · intro k bv store id now now' pre ok hid hbv h
    rw [interactionRoute_close_found store id now hid h]
    rw [interactionRoute_notFound k bv (storeErase store id) id now' pre ok
      hid hbv (storeFind_storeErase store id)]

/-- Witness for C9: closing a concrete one-session store then navigating
on the same identifier replies 404, and clicking on a never-issued
identifier replies 404. -/
theorem c9_close_then_not_found_witness :
    (interactionRoute Interaction.navigate true
      (interactionRoute Interaction.closeSession true
        [{ sessionId := "abc", hasBrowser := true, hasPage := true,
           createdAt := 0, lastActivity := 0 }] "abc" 50 true true).2
      "abc" 60 true true).1
      = { status := 404, error := some "Session not found" } ∧
    (interactionRoute Interaction.click true [] "nope" 0 true true).1
      = { status := 404, error := some "Session not found" } :=
  ⟨c9_close_then_not_found.2.2 Interaction.navigate true
      [{ sessionId := "abc", hasBrowser := true, hasPage := true,
         createdAt := 0, lastActivity := 0 }] "abc" 50 60 true true
      (by decide) (by decide) (by decide),
   (c9_close_then_not_found.1 Interaction.click true [] "nope" 0 true true
      (by decide) (by decide) (by decide)).1⟩

/-- C10 counterexample: on a concrete initialized stored session, a
screenshot request whose `page.title()` call fails replies 500 with
`lastActivity` left at its old value — the refresh lives in
`getScreenshot`, which `getPageInfo` only reaches after awaiting
`title()` — so the screenshot interaction does not update `lastActivity`
before its underlying page action, and a failed screenshot request can
leave it unrefreshed. -/
theorem c10_refresh_claim_counterexample :
    (interactionRoute Interaction.screenshot true
      [{ sessionId := "s1", hasBrowser := true, hasPage := true,
         createdAt := 0, lastActivity := 0 }] "s1" 99 false true).1.status
      = 500 ∧
    storeFind (interactionRoute Interaction.screenshot true
      [{ sessionId := "s1", hasBrowser := true, hasPage := true,
         createdAt := 0, lastActivity := 0 }] "s1" 99 false true).2 "s1"
      = some { sessionId := "s1", hasBrowser := true, hasPage := true,
               createdAt := 0, lastActivity := 0 } ∧
    ((0 : Int) ≠ 99) :=
  ⟨by decide, by decide, by decide⟩

/-- C10 (amended): navigate, click, type, scroll and executeScript on an
initialized stored session update `lastActivity` to the current time
before performing the underlying page action, so for these the stored
`lastActivity` equals the request time even when the action fails (the
route then replying 500), postponing eviction despite the failed
operation.  The screenshot interaction, however, first awaits
`page.title()` inside `getPageInfo` and only refreshes `lastActivity`
inside the subsequent `getScreenshot`: a title failure replies 500 with
`lastActivity` unrefreshed and the store unchanged, while once the title
call succeeds the refresh precedes the capture, so a failed capture still
leaves `lastActivity` refreshed. -/
theorem c10_refresh_amended :
    (∀ k bv store id now pre ok s, k ≠ Interaction.closeSession →
      k ≠ Interaction.screenshot → id ≠ "" →
      (requiresBody k = true → bv = true) →
      storeFind store id = some s → s.hasPage = true →
      storeFind (interactionRoute k bv store id now pre ok).2 id
        = some { s with lastActivity := now } ∧
      (ok = false →
        (interactionRoute k bv store id now pre ok).1.status = 500)) ∧
    (∀ bv store id now ok s, id ≠ "" → storeFind store id = some s →
      s.hasPage = true →
      (interactionRoute Interaction.screenshot bv store id now
        false ok).1.status = 500 ∧
      (interactionRoute Interaction.screenshot bv store id now false ok).2
        = store) ∧
    (∀ bv store id now ok s, id ≠ "" → storeFind store id = some s →
      s.hasPage = true →
      storeFind
        (interactionRoute Interaction.screenshot bv store id now true ok).2 id
        = some { s with lastActivity := now } ∧
      (ok = false →
        (interactionRoute Interaction.screenshot bv store id now
          true ok).1.status = 500)) := by
  refine ⟨?_, ?_, ?_⟩
  · intro k bv store id now pre ok s hk hks hid hbv h hp
    have hb : (requiresBody k && !bv) = false := by
      cases hkb : requiresBody k
      · rfl
      · simp [hbv hkb]
    have hsid : s.sessionId = id := storeFind_sessionId store id s h
    have hset : storeFind (storeSet store id { s with lastActivity := now }) id
        = some { s with lastActivity := now } :=
      storeFind_storeSet store id { s with lastActivity := now } s
        (by simpa using hsid) h
    rw [show ({ s with lastActivity := now } : Session)
          = { s with hasPage := true, lastActivity := now } from by rw [← hp]]
      at hset
    cases k with
    | closeSession => exact absurd rfl hk
    | screenshot => exact absurd rfl hks
    | navigate => cases ok <;> simp [interactionRoute, hid, hb, h, hp, hset]
    | click => cases ok <;> simp [interactionRoute, hid, hb, h, hp, hset]
    | typeText => cases ok <;> simp [interactionRoute, hid, hb, h, hp, hset]
    | scroll => cases ok <;> simp [interactionRoute, hid, hb, h, hp, hset]
    | executeScript =>
      cases ok <;> simp [interactionRoute, hid, hb, h, hp, hset]
  · intro bv store id now ok s hid h hp
    constructor <;> simp [interactionRoute, requiresBody, hid, h, hp]
  · intro bv store id now ok s hid h hp
    have hsid : s.sessionId = id := storeFind_sessionId store id s h
    have hset : storeFind (storeSet store id { s with lastActivity := now }) id
        = some { s with lastActivity := now } :=
      storeFind_storeSet store id { s with lastActivity := now } s
        (by simpa using hsid) h
    rw [show ({ s with lastActivity := now } : Session)
          = { s with hasPage := true, lastActivity := now } from by rw [← hp]]
      at hset
    cases ok <;> simp [interactionRoute, requiresBody, hid, h, hp, hset]

/-- Witness for C10 (amended) on a concrete session: a failed navigation
still refreshes `lastActivity`; a screenshot whose `title()` call fails
does not; a screenshot whose capture fails after a successful `title()`
call does. -/
theorem c10_refresh_amended_witness :
    storeFind (interactionRoute Interaction.navigate true
      [{ sessionId := "s1", hasBrowser := true, hasPage := true,
         createdAt := 0, lastActivity := 0 }] "s1" 99 true false).2 "s1"
      = some { sessionId := "s1", hasBrowser := true, hasPage := true,
               createdAt := 0, lastActivity := 99 } ∧
    (interactionRoute Interaction.screenshot true
      [{ sessionId := "s1", hasBrowser := true, hasPage := true,
         createdAt := 0, lastActivity := 0 }] "s1" 99 false true).2
      = [{ sessionId := "s1", hasBrowser := true, hasPage := true,
           createdAt := 0, lastActivity := 0 }] ∧
    storeFind (interactionRoute Interaction.screenshot true
      [{ sessionId := "s1", hasBrowser := true, hasPage := true,
         createdAt := 0, lastActivity := 0 }] "s1" 99 true false).2 "s1"
      = some { sessionId := "s1", hasBrowser := true, hasPage := true,
               createdAt := 0, lastActivity := 99 } := by
  have h1 := c10_refresh_amended.1 Interaction.navigate true
    [{ sessionId := "s1", hasBrowser := true, hasPage := true,
       createdAt := 0, lastActivity := 0 }] "s1" 99 true false
    { sessionId := "s1", hasBrowser := true, hasPage := true,
      createdAt := 0, lastActivity := 0 }
    (by decide) (by decide) (by decide) (by decide) (by decide) (by decide)
  have h2 := c10_refresh_amended.2.1 true
    [{ sessionId := "s1", hasBrowser := true, hasPage := true,
       createdAt := 0, lastActivity := 0 }] "s1" 99 true
    { sessionId := "s1", hasBrowser := true, hasPage := true,
      createdAt := 0, lastActivity := 0 }
    (by decide) (by decide) (by decide)
  have h3 := c10_refresh_amended.2.2 true
    [{ sessionId := "s1", hasBrowser := true, hasPage := true,
       createdAt := 0, lastActivity := 0 }] "s1" 99 false
    { sessionId := "s1", hasBrowser := true, hasPage := true,
      createdAt := 0, lastActivity := 0 }
    (by decide) (by decide) (by decide)
  exact ⟨h1.1, h2.2, h3.1⟩

end OG
